import Mathlib

/-!
Shallow embedding of the Blue Bird inventory pipeline:
`src/models/safety_stock.py` (safety stock / reorder point / EOQ policy
engine), `src/agent/recommender.py` (recommendation engine), and the
feature construction and recursive forecasting loop of
`src/models/forecaster.py`.

Numeric code is modelled over the reals.  `stats.norm.ppf(service_level)`
is an opaque library call in the source; it is modelled by an explicit
real parameter `z`.  The inverse standard-normal CDF is a strictly
increasing bijection from the open interval (0,1) onto all of ℝ, so
quantifying over `z : ℝ` ranges exactly over the images of valid service
levels, and concrete theorems pin `z` by the numeric bounds of the
scenario at hand (for instance `ppf 0.95 = 1.64485...`, `ppf p < 0` for
every `p < 1/2`).
-/

open scoped Classical

noncomputable section

/-- Model of Python's built-in `round` on floats: round-half-to-even
(banker's rounding).  At non-half values it agrees with `round`. -/
def pyRound (x : ℝ) : ℤ :=
  if Int.fract x = 1 / 2 then (if Even ⌊x⌋ then ⌊x⌋ else ⌊x⌋ + 1) else round x

/-- Model of Python's `round(x, d)` for `d` decimal digits. -/
def roundTo (d : ℕ) (x : ℝ) : ℝ :=
  (pyRound (x * 10 ^ d) : ℝ) / 10 ^ d

/-- Result record of `calculate_safety_stock` (src/models/safety_stock.py
lines 38-43): Python's `round(ss)` and `round(rop)` produce integers,
`round(z, 2)` and `round(avg_demand_weekly, 1)` produce floats. -/
structure SafetyStockResult where
  safety_stock : ℤ
  reorder_point : ℤ
  z_score : ℝ
  weekly_demand : ℝ

/-- `calculate_safety_stock` (src/models/safety_stock.py lines 14-43).
The parameter `z` models the library call `stats.norm.ppf(service_level)`. -/
def calculate_safety_stock (avg_demand_monthly demand_std_monthly avg_lead_time_weeks
    lead_time_std_weeks z : ℝ) : SafetyStockResult :=
  let avg_demand_weekly := avg_demand_monthly / 4.33
  let demand_std_weekly := demand_std_monthly / Real.sqrt 4.33
  let ss := z * Real.sqrt (avg_lead_time_weeks * demand_std_weekly ^ 2 +
    avg_demand_weekly ^ 2 * lead_time_std_weeks ^ 2)
  let rop := avg_demand_weekly * avg_lead_time_weeks + ss
  { safety_stock := pyRound ss
    reorder_point := pyRound rop
    z_score := roundTo 2 z
    weekly_demand := roundTo 1 avg_demand_weekly }

/-- Status classification of a component (src/models/safety_stock.py lines 95-103). -/
inductive Status where
  | critical
  | warning
  | ok
deriving DecidableEq

/-- Status and raw (unrounded) stockout risk of one component
(src/models/safety_stock.py lines 95-103).  `current` is the row's current
stock, `ss` and `rop` the rounded safety stock and reorder point; Python's
`max(rop, 1)` is integer max. -/
def statusRisk (current : ℝ) (ss rop : ℤ) : Status × ℝ :=
  if current ≤ (ss : ℝ) * 0.5 then
    (Status.critical, min 0.95 (1 - current / ((max rop 1 : ℤ) : ℝ)))
  else if current ≤ (rop : ℝ) then
    (Status.warning, min 0.7 (1 - current / ((max rop 1 : ℤ) : ℝ)))
  else
    (Status.ok, max 0 (0.1 - (current - (rop : ℝ)) / ((max rop 1 : ℤ) : ℝ) * 0.1))

/-- EOQ computation (src/models/safety_stock.py lines 80-88): with positive
unit cost, `max(round(sqrt(2 * annual_demand * 50 / (unit_cost * 0.20))), 1)`
where `annual_demand = forecast_mean * 12`; otherwise `round(forecast_mean)`. -/
def eoqCalc (unit_cost forecast_mean : ℝ) : ℤ :=
  if 0 < unit_cost then
    max (pyRound (Real.sqrt (2 * (forecast_mean * 12) * 50 / (unit_cost * 0.20)))) 1
  else pyRound forecast_mean

/-- One row of the inventory snapshot consumed by `run`
(src/models/safety_stock.py lines 49, 57). -/
structure InventoryRow where
  component_id : String
  category : String
  variant : String
  current_stock : ℝ
  unit_cost : ℝ
  supplier_id : String
  supplier_name : String
  lead_time_weeks : ℝ
  lead_time_std_weeks : ℝ
  monthly_demand_avg : ℝ

/-- Per-component record appended by `run` (src/models/safety_stock.py
lines 107-126). -/
structure StockPolicy where
  component_id : String
  category : String
  variant : String
  current_stock : ℝ
  safety_stock : ℤ
  reorder_point : ℤ
  eoq : ℤ
  weekly_demand : ℝ
  lead_time_weeks : ℝ
  lead_time_std_weeks : ℝ
  weeks_of_cover : ℝ
  unit_cost : ℝ
  supplier_id : String
  supplier_name : String
  status : Status
  stockout_risk : ℝ
  service_level : ℝ
  recommended_order_qty : ℝ

/-- Demand mean/std selection in `run` (src/models/safety_stock.py lines
58-70).  `forecastMatch` is the aggregated forecast (mean, std) for the
component's (category, variant), `none` when no forecast record exists
(no `forecast_df`, or an empty match): then the fallback is
mean = monthly_demand_avg and std = 0.3 × that mean.  A present forecast
record (m, s) is used as (m, max s 1). -/
def selectDemand (forecastMatch : Option (ℝ × ℝ)) (avg : ℝ) : ℝ × ℝ :=
  match forecastMatch with
  | none => (avg, avg * 0.3)
  | some (m, s) => (m, max s 1)

/-- The per-component body of `run` (src/models/safety_stock.py lines
72-126) after the demand mean/std have been selected.  `z` models
`stats.norm.ppf(service_level)`. -/
def mkPolicy (row : InventoryRow) (forecast_mean forecast_std z service_level : ℝ) :
    StockPolicy :=
  let result := calculate_safety_stock forecast_mean forecast_std
    row.lead_time_weeks row.lead_time_std_weeks z
  let eoq := eoqCalc row.unit_cost forecast_mean
  let current := row.current_stock
  let rop := result.reorder_point
  let ss := result.safety_stock
  let sr := statusRisk current ss rop
  let weeks_of_cover := current / max result.weekly_demand 0.1
  { component_id := row.component_id
    category := row.category
    variant := row.variant
    current_stock := current
    safety_stock := ss
    reorder_point := rop
    eoq := eoq
    weekly_demand := result.weekly_demand
    lead_time_weeks := row.lead_time_weeks
    lead_time_std_weeks := row.lead_time_std_weeks
    weeks_of_cover := roundTo 1 weeks_of_cover
    unit_cost := row.unit_cost
    supplier_id := row.supplier_id
    supplier_name := row.supplier_name
    status := sr.1
    stockout_risk := roundTo 3 sr.2
    service_level := service_level
    recommended_order_qty :=
      if current < (rop : ℝ) then max 0 ((rop : ℝ) - current + (eoq : ℝ)) else 0 }

/-- One iteration of the loop in `run` (src/models/safety_stock.py lines
57-126): select the demand estimate, then compute the policy record.  `run`
performs no validation of the row anywhere. -/
def processComponent (row : InventoryRow) (forecastMatch : Option (ℝ × ℝ))
    (z service_level : ℝ) : StockPolicy :=
  mkPolicy row (selectDemand forecastMatch row.monthly_demand_avg).1
    (selectDemand forecastMatch row.monthly_demand_avg).2 z service_level

/-- One exported forecast record (src/models/forecaster.py: category,
variant, year_month, predicted), as consumed by the spike check in
`generate_recommendations` (src/agent/recommender.py lines 75-90). -/
structure ForecastRow where
  category : String
  variant : String
  year_month : String
  predicted : ℝ

/-- The rows of `forecast_df` matching the component's category and variant
(src/agent/recommender.py lines 76-79). -/
def forecastFor (fdf : List ForecastRow) (c v : String) : List ForecastRow :=
  fdf.filter (fun r => r.category == c && r.variant == v)

/-- Maximum of a list of reals (pandas `.max()`, consulted only on
nonempty frames; 0 on the empty list). -/
def listMax : List ℝ → ℝ
  | [] => 0
  | a :: t => t.foldl max a

/-- Arithmetic mean of a list of reals (pandas `.mean()` / `np.mean`). -/
def listMean (l : List ℝ) : ℝ := l.sum / l.length

/-- First row whose predicted value equals `m`, scanning left to right. -/
def firstMaxFrom (m : ℝ) : List ForecastRow → Option ForecastRow
  | [] => none
  | r :: t => if r.predicted = m then some r else firstMaxFrom m t

/-- First row attaining the maximum predicted value: pandas `idxmax`
returns the first index of the maximum (src/agent/recommender.py line 84). -/
def firstMax (rows : List ForecastRow) : Option ForecastRow :=
  firstMaxFrom (listMax (rows.map ForecastRow.predicted)) rows

/-- Structured content of the forecast-spike alert text
(src/agent/recommender.py lines 86-90). -/
structure SpikeAlert where
  month : String
  spike_pct : ℤ
  units : ℤ

/-- Spike check for one component (src/agent/recommender.py lines 80-90):
if any forecast rows match (the `predicted` column always exists in this
typed model) and max > mean · 1.3, attach an alert naming the first peak
period, `round((max/mean - 1) * 100)` and `round(max - mean)`. -/
def spikeAlert (rows : List ForecastRow) : Option SpikeAlert :=
  let preds := rows.map ForecastRow.predicted
  if rows ≠ [] ∧ listMax preds > listMean preds * 1.3 then
    some { month := ((firstMax rows).map ForecastRow.year_month).getD "Q3"
           spike_pct := pyRound ((listMax preds / listMean preds - 1) * 100)
           units := pyRound (listMax preds - listMean preds) }
  else none

/-- Structured content of the four recommendation message families
(src/agent/recommender.py lines 38-72); dates are measured in days.  The
f-string text itself (including strftime formatting) is presentation and
not modelled. -/
inductive RecMessage where
  | criticalOverdue (stockout_date order_deadline : ℝ) (qty : ℝ)
  | criticalBelowSafety (qty : ℝ)
  | warningOrderBy (order_by : ℝ) (qty : ℝ)
  | okNoAction

/-- The `today = datetime(2026, 2, 18)` fixed inside the body of
`generate_recommendations` (src/agent/recommender.py line 17), taken as the
origin of the day scale. -/
def engineFixedToday : ℝ := 0

/-- One recommendation record (src/agent/recommender.py lines 20-92). -/
structure Recommendation where
  component_id : String
  category : String
  variant : String
  status : Status
  stockout_risk : ℝ
  current_stock : ℝ
  safety_stock : ℤ
  reorder_point : ℤ
  weeks_of_cover : ℝ
  lead_time_weeks : ℝ
  supplier_name : String
  message : RecMessage
  priority : ℕ
  forecast_alert : Option SpikeAlert

/-- Builds the recommendation for one StockPolicy row
(src/agent/recommender.py lines 19-92).  `timedelta(weeks=w)` is `7 * w`
days from the engine-fixed date. -/
def mkRec (fdf : Option (List ForecastRow)) (p : StockPolicy) : Recommendation :=
  let cover := p.weeks_of_cover
  let lead := p.lead_time_weeks
  let mp : RecMessage × ℕ :=
    match p.status with
    | Status.critical =>
        if cover < lead then
          (RecMessage.criticalOverdue (engineFixedToday + 7 * cover)
            (engineFixedToday - 7 * (lead - cover)) p.recommended_order_qty, 1)
        else (RecMessage.criticalBelowSafety p.recommended_order_qty, 1)
    | Status.warning =>
        (RecMessage.warningOrderBy (engineFixedToday + 7 * max 0 (cover - lead))
          p.recommended_order_qty, 2)
    | Status.ok => (RecMessage.okNoAction, 3)
  { component_id := p.component_id
    category := p.category
    variant := p.variant
    status := p.status
    stockout_risk := p.stockout_risk
    current_stock := p.current_stock
    safety_stock := p.safety_stock
    reorder_point := p.reorder_point
    weeks_of_cover := p.weeks_of_cover
    lead_time_weeks := p.lead_time_weeks
    supplier_name := p.supplier_name
    message := mp.1
    priority := mp.2
    forecast_alert :=
      match fdf with
      | none => none
      | some rows => spikeAlert (forecastFor rows p.category p.variant) }

/-- Sort key order of `recommendations.sort(key=lambda r: (r["priority"],
-r["stockout_risk"]))` (src/agent/recommender.py line 95): lexicographic on
(priority ascending, stockout_risk descending). -/
def recLE (a b : Recommendation) : Prop :=
  a.priority < b.priority ∨ (a.priority = b.priority ∧ b.stockout_risk ≤ a.stockout_risk)

instance : IsTotal Recommendation recLE := by
  refine ⟨fun a b => ?_⟩
  unfold recLE
  rcases lt_trichotomy a.priority b.priority with h | h | h
  · exact Or.inl (Or.inl h)
  · rcases le_total b.stockout_risk a.stockout_risk with hr | hr
    · exact Or.inl (Or.inr ⟨h, hr⟩)
    · exact Or.inr (Or.inr ⟨h.symm, hr⟩)
  · exact Or.inr (Or.inl h)

instance : IsTrans Recommendation recLE := by
  refine ⟨fun a b c hab hbc => ?_⟩
  unfold recLE at hab hbc ⊢
  rcases hab with h1 | ⟨h1, r1⟩ <;> rcases hbc with h2 | ⟨h2, r2⟩
  · exact Or.inl (by omega)
  · exact Or.inl (by omega)
  · exact Or.inl (by omega)
  · exact Or.inr ⟨by omega, r2.trans r1⟩

/-- `generate_recommendations` (src/agent/recommender.py lines 14-96): map
each policy row to its recommendation in input order, then stable-sort by
(priority asc, stockout_risk desc).  Python's `list.sort` is stable, and a
stable sort by a total preorder is unique, so it is embedded as Mathlib's
insertion sort, which is stable. -/
def generate_recommendations (policies : List StockPolicy)
    (fdf : Option (List ForecastRow)) : List Recommendation :=
  List.insertionSort recLE (policies.map (mkRec fdf))

set_option linter.unusedVariables false in
/-- `generate_recommendations` as invoked at an ambient current date
`currentDate`: the source function takes no date parameter and reads no
clock (its `today` is the fixed constant of line 17), so invoking it at any
ambient moment yields the same result — the definition discards the
ambient date, exactly as the source does. -/
def generate_recommendations_at (currentDate : ℝ) (policies : List StockPolicy)
    (fdf : Option (List ForecastRow)) : List Recommendation :=
  generate_recommendations policies fdf

/-- The sublist of recommendations carrying one exact sort key, used to
state stability of the final ordering. -/
def keyFilter (pr : ℕ) (ri : ℝ) (l : List Recommendation) : List Recommendation :=
  l.filter (fun r => r.priority == pr && decide (r.stockout_risk = ri))

/-- A concrete warning-status StockPolicy row used as input of concrete
instantiations (weeks_of_cover 6, lead time 4, order quantity 25). -/
def sampleWarningPolicy : StockPolicy :=
  { component_id := "W1"
    category := "frame"
    variant := "standard"
    current_stock := 40
    safety_stock := 10
    reorder_point := 45
    eoq := 20
    weekly_demand := 5
    lead_time_weeks := 4
    lead_time_std_weeks := 1
    weeks_of_cover := 6
    unit_cost := 10
    supplier_id := "S1"
    supplier_name := "Acme"
    status := Status.warning
    stockout_risk := 0.5
    service_level := 0.95
    recommended_order_qty := 25 }

/-- Sample standard deviation (ddof = 1), the estimator of pandas
`rolling(...).std()` used in training-time feature construction
(src/models/forecaster.py line 48). -/
def sampleStd (l : List ℝ) : ℝ :=
  Real.sqrt ((l.map (fun x => (x - listMean l) ^ 2)).sum / ((l.length : ℝ) - 1))

/-- Population standard deviation (ddof = 0), the estimator of `np.std`
used inside the recursive forecast loop (src/models/forecaster.py line 148). -/
def popStd (l : List ℝ) : ℝ :=
  Real.sqrt ((l.map (fun x => (x - listMean l) ^ 2)).sum / (l.length : ℝ))

/-- Training-side lag feature of `add_features`: `group.shift(lag)` at row
position `t` of a series, with the later `fillna(0)` of `train_and_forecast`
applied (src/models/forecaster.py lines 44-45, 71-72). -/
def trainLag (d : List ℝ) (t k : ℕ) : ℝ :=
  if k ≤ t then d.getD (t - k) 0 else 0

/-- The trailing window of up to `w` observations before row `t`:
`x.shift(1).rolling(w, min_periods=1)` at position `t` covers positions
t-w .. t-1 clipped to the series start (src/models/forecaster.py
lines 47-49). -/
def windowPrev (d : List ℝ) (t w : ℕ) : List ℝ :=
  (d.take t).drop (t - w)

/-- Training-side trailing rolling mean, `min_periods=1`, with the later
`fillna(0)`: NaN (hence 0) exactly when there is no prior observation
(src/models/forecaster.py lines 47, 49, 71-72). -/
def trainRollingMean (d : List ℝ) (t w : ℕ) : ℝ :=
  if windowPrev d t w = [] then 0 else listMean (windowPrev d t w)

/-- Training-side trailing rolling std: pandas `.std()` (ddof = 1) is NaN —
hence 0 after `fillna` — on windows of fewer than two observations
(src/models/forecaster.py lines 48, 71-72). -/
def trainRollingStd (d : List ℝ) (t w : ℕ) : ℝ :=
  if 2 ≤ (windowPrev d t w).length then sampleStd (windowPrev d t w) else 0

/-- Forecast-loop lag feature: `demands[-lag] if len(demands) >= lag else 0`
(src/models/forecaster.py lines 143-144), where `demands` is the series
extended with all previously forecast periods. -/
def fcLag (d : List ℝ) (k : ℕ) : ℝ :=
  if k ≤ d.length then d.getD (d.length - k) 0 else 0

/-- `demands[-w:] if len(demands) >= w else demands`
(src/models/forecaster.py lines 146, 149). -/
def fcRecent (d : List ℝ) (w : ℕ) : List ℝ :=
  d.drop (d.length - w)

/-- Forecast-loop rolling mean: `np.mean(recent) if recent else 0`
(src/models/forecaster.py lines 147, 150). -/
def fcMean (d : List ℝ) (w : ℕ) : ℝ :=
  if fcRecent d w = [] then 0 else listMean (fcRecent d w)

/-- Forecast-loop rolling std over the 3-window: `np.std(recent) if
len(recent) > 1 else 0` (src/models/forecaster.py line 148); `np.std` is
the population std (ddof = 0). -/
def fcStd3 (d : List ℝ) : ℝ :=
  if 1 < (fcRecent d 3).length then popStd (fcRecent d 3) else 0

/-! Theorems.  Shared helper lemmas first, then one theorem (plus witness or
counterexample) per claim. -/

theorem pyRound_le_of_lt_add_half (n : ℤ) (x : ℝ) (h : x < (n : ℝ) + 1 / 2) :
    pyRound x ≤ n := by
  rw [pyRound]
  by_cases hf : Int.fract x = 1 / 2
  · have hfl := Int.floor_add_fract x
    rw [hf] at hfl
    have hx : x = (⌊x⌋ : ℝ) + 1 / 2 := by linarith
    have hn : ⌊x⌋ < n := by
      have h' : (⌊x⌋ : ℝ) < (n : ℝ) := by linarith
      exact_mod_cast h'
    rw [if_pos hf]
    split_ifs <;> omega
  · rw [if_neg hf, round_eq]
    have hn : ⌊x + 1 / 2⌋ < n + 1 := by
      rw [Int.floor_lt]
      push_cast
      linarith
    omega

theorem pyRound_ge_of_sub_half_lt (n : ℤ) (x : ℝ) (h : (n : ℝ) - 1 / 2 < x) :
    n ≤ pyRound x := by
  rw [pyRound]
  by_cases hf : Int.fract x = 1 / 2
  · have hfl := Int.floor_add_fract x
    rw [hf] at hfl
    have hx : x = (⌊x⌋ : ℝ) + 1 / 2 := by linarith
    have hn : n ≤ ⌊x⌋ := by
      have h' : (n : ℝ) < (⌊x⌋ : ℝ) + 1 := by linarith
      have h'' : n < ⌊x⌋ + 1 := by exact_mod_cast h'
      omega
    rw [if_pos hf]
    split_ifs <;> omega
  · rw [if_neg hf, round_eq]
    have hn : n ≤ ⌊x + 1 / 2⌋ := Int.le_floor.mpr (by linarith)
    omega

theorem pyRound_eq (n : ℤ) (x : ℝ) (h1 : (n : ℝ) - 1 / 2 < x) (h2 : x < (n : ℝ) + 1 / 2) :
    pyRound x = n :=
  le_antisymm (pyRound_le_of_lt_add_half n x h2) (pyRound_ge_of_sub_half_lt n x h1)

theorem pyRound_intCast (n : ℤ) : pyRound (n : ℝ) = n :=
  pyRound_eq n _ (by linarith) (by linarith)

theorem sub_half_le_pyRound (x : ℝ) : x - 1 / 2 ≤ (pyRound x : ℝ) := by
  rw [pyRound]
  by_cases hf : Int.fract x = 1 / 2
  · have hfl := Int.floor_add_fract x
    rw [hf] at hfl
    rw [if_pos hf]
    split_ifs <;> push_cast <;> linarith
  · rw [if_neg hf]
    have habs := abs_le.mp (abs_sub_round x)
    linarith [habs.1, habs.2]

theorem pyRound_mono {x y : ℝ} (h : x ≤ y) : pyRound x ≤ pyRound y := by
  rcases eq_or_lt_of_le h with rfl | hlt
  · exact le_rfl
  · exact pyRound_le_of_lt_add_half _ x (by linarith [sub_half_le_pyRound y])

theorem pyRound_nonneg {x : ℝ} (h : 0 ≤ x) : 0 ≤ pyRound x :=
  pyRound_ge_of_sub_half_lt 0 x (by push_cast; linarith)

theorem sqrt_of_eq_sq {a b : ℝ} (hb : 0 ≤ b) (h : a = b ^ 2) : Real.sqrt a = b := by
  rw [h]
  exact Real.sqrt_sq hb

theorem calc_safety_stock_eq (mean std L Lstd z : ℝ) :
    (calculate_safety_stock mean std L Lstd z).safety_stock
      = pyRound (z * Real.sqrt (L * (std / Real.sqrt 4.33) ^ 2 +
          (mean / 4.33) ^ 2 * Lstd ^ 2)) := rfl

theorem calc_reorder_point_eq (mean std L Lstd z : ℝ) :
    (calculate_safety_stock mean std L Lstd z).reorder_point
      = pyRound (mean / 4.33 * L + z * Real.sqrt (L * (std / Real.sqrt 4.33) ^ 2 +
          (mean / 4.33) ^ 2 * Lstd ^ 2)) := rfl

theorem calc_ss_le_rop (mean std L Lstd z : ℝ) (hmean : 0 ≤ mean) (hL : 0 ≤ L) :
    (calculate_safety_stock mean std L Lstd z).safety_stock ≤
      (calculate_safety_stock mean std L Lstd z).reorder_point := by
  rw [calc_safety_stock_eq, calc_reorder_point_eq]
  apply pyRound_mono
  have hw : 0 ≤ mean / 4.33 * L := by positivity
  linarith

theorem calc_ss_nonneg (mean std L Lstd z : ℝ) (hz : 0 ≤ z) :
    0 ≤ (calculate_safety_stock mean std L Lstd z).safety_stock := by
  rw [calc_safety_stock_eq]
  exact pyRound_nonneg (mul_nonneg hz (Real.sqrt_nonneg _))

theorem statusRisk_mem_unit {current : ℝ} {ss rop : ℤ} (hcur : 0 ≤ current)
    (hsr : ss ≤ rop) :
    0 ≤ (statusRisk current ss rop).2 ∧ (statusRisk current ss rop).2 ≤ 1 := by
  have hm1 : (1 : ℝ) ≤ ((max rop 1 : ℤ) : ℝ) := by exact_mod_cast le_max_right rop 1
  have hm0 : (0 : ℝ) < ((max rop 1 : ℤ) : ℝ) := by linarith
  have hrm : (rop : ℝ) ≤ ((max rop 1 : ℤ) : ℝ) := by exact_mod_cast le_max_left rop 1
  have hsrR : (ss : ℝ) ≤ (rop : ℝ) := by exact_mod_cast hsr
  unfold statusRisk
  split_ifs with h1 h2 <;> dsimp only
  · have hss : (0 : ℝ) ≤ (ss : ℝ) := by linarith
    have hr1 : current / ((max rop 1 : ℤ) : ℝ) ≤ 1 := by
      rw [div_le_one hm0]
      linarith
    exact ⟨le_min (by norm_num) (by linarith), le_trans (min_le_left _ _) (by norm_num)⟩
  · have hr1 : current / ((max rop 1 : ℤ) : ℝ) ≤ 1 := by
      rw [div_le_one hm0]
      linarith
    exact ⟨le_min (by norm_num) (by linarith), le_trans (min_le_left _ _) (by norm_num)⟩
  · push_neg at h2
    have hd : 0 ≤ (current - (rop : ℝ)) / ((max rop 1 : ℤ) : ℝ) :=
      div_nonneg (by linarith) (le_of_lt hm0)
    exact ⟨le_max_left _ _, max_le (by norm_num) (by nlinarith)⟩

theorem roundTo3_mem_unit {x : ℝ} (h0 : 0 ≤ x) (h1 : x ≤ 1) :
    0 ≤ roundTo 3 x ∧ roundTo 3 x ≤ 1 := by
  rw [roundTo]
  constructor
  · apply div_nonneg _ (by norm_num)
    exact_mod_cast pyRound_nonneg (by positivity)
  · rw [div_le_one (by norm_num : (0 : ℝ) < 10 ^ 3)]
    have hb : pyRound (x * 10 ^ 3) ≤ 1000 :=
      pyRound_le_of_lt_add_half 1000 _ (by push_cast; nlinarith)
    calc ((pyRound (x * 10 ^ 3) : ℤ) : ℝ) ≤ ((1000 : ℤ) : ℝ) := by exact_mod_cast hb
      _ ≤ 10 ^ 3 := by norm_num

theorem roundTo_of_mul_eq_intCast (d : ℕ) (x : ℝ) (n : ℤ) (h : x * 10 ^ d = (n : ℝ)) :
    roundTo d x = (n : ℝ) / 10 ^ d := by
  rw [roundTo, h, pyRound_intCast]

/-- Claim C1: the Stock Policy Engine computes
safety_stock = z·√(lead_time_weeks·weekly_std² + weekly_mean²·lead_time_std_weeks²)
with weekly_mean = monthly_mean/4.33 and weekly_std = monthly_std/√4.33, and
reorder_point = weekly_mean·lead_time_weeks + safety_stock; for monthly mean 100,
std 30, lead time 4 weeks, lead-time std 1 week and service level 0.95
(z = ppf 0.95 = 1.64485..., pinned here by 1.6448 ≤ z ≤ 1.6449) the rounded
outputs are safety_stock = 61 and reorder_point = 153. -/
theorem calculate_safety_stock_scenario (z : ℝ) (h1 : 1.6448 ≤ z) (h2 : z ≤ 1.6449) :
    (calculate_safety_stock 100 30 4 1 z).safety_stock = 61 ∧
      (calculate_safety_stock 100 30 4 1 z).reorder_point = 153 := by
  have h433 : (0 : ℝ) ≤ 4.33 := by norm_num
  have hS : (4 : ℝ) * (30 / Real.sqrt 4.33) ^ 2 + (100 / 4.33) ^ 2 * 1 ^ 2
      = 255880000 / 187489 := by
    rw [div_pow, Real.sq_sqrt h433]
    norm_num
  have hlo : (36.94 : ℝ) < Real.sqrt (255880000 / 187489) :=
    (Real.lt_sqrt (by norm_num)).mpr (by norm_num)
  have hhi : Real.sqrt (255880000 / 187489) < 36.95 :=
    (Real.sqrt_lt' (by norm_num)).mpr (by norm_num)
  have hs0 : (0 : ℝ) ≤ Real.sqrt (255880000 / 187489) := Real.sqrt_nonneg _
  have hzlo : (60.75 : ℝ) < z * Real.sqrt (255880000 / 187489) := by nlinarith
  have hzhi : z * Real.sqrt (255880000 / 187489) < (60.78 : ℝ) := by nlinarith
  constructor
  · rw [calc_safety_stock_eq, hS]
    exact pyRound_eq 61 _ (by push_cast; linarith) (by push_cast; linarith)
  · rw [calc_reorder_point_eq, hS]
    have hm : (92.37 : ℝ) < (100 : ℝ) / 4.33 * 4 ∧ (100 : ℝ) / 4.33 * 4 < 92.38 := by
      constructor <;> norm_num
    exact pyRound_eq 153 _ (by push_cast; linarith [hm.1]) (by push_cast; linarith [hm.2])

/-- Witness for claim C1 at the concrete z value 1.6448. -/
theorem calculate_safety_stock_scenario_witness :
    ((1.6448 : ℝ) ≤ 1.6448 ∧ (1.6448 : ℝ) ≤ 1.6449) ∧
      ((calculate_safety_stock 100 30 4 1 1.6448).safety_stock = 61 ∧
        (calculate_safety_stock 100 30 4 1 1.6448).reorder_point = 153) :=
  ⟨⟨by norm_num, by norm_num⟩, calculate_safety_stock_scenario 1.6448 (by norm_num) (by norm_num)⟩

/-- Claim C3 as stated is false: for a service level below one half the
z-score is negative, and so is the computed safety stock.  Here z = -1 =
ppf(0.15865...), the image of a service level inside (0,1); the inputs are
otherwise valid (monthly mean 4.33 ≥ 0, std 0 ≥ 0, lead time 4 > 0,
lead-time std 1 ≥ 0), yet safety_stock = -1 < 0. -/
theorem safety_stock_nonneg_counterexample :
    (calculate_safety_stock 4.33 0 4 1 (-1)).safety_stock = -1 ∧
      ¬(0 ≤ (calculate_safety_stock 4.33 0 4 1 (-1)).safety_stock) := by
  have hv : (calculate_safety_stock 4.33 0 4 1 (-1)).safety_stock = -1 := by
    rw [calc_safety_stock_eq]
    have harg : (4 : ℝ) * (0 / Real.sqrt 4.33) ^ 2 + (4.33 / 4.33) ^ 2 * 1 ^ 2 = 1 ^ 2 := by
      rw [zero_div]
      norm_num
    rw [harg, Real.sqrt_sq (by norm_num : (0 : ℝ) ≤ 1)]
    have : (-1 : ℝ) * 1 = ((-1 : ℤ) : ℝ) := by norm_num
    rw [this, pyRound_intCast]
  exact ⟨hv, by rw [hv]; omega⟩

/-- Claim C3 amended: reorder_point ≥ safety_stock holds for every valid
input (demand mean ≥ 0, lead time ≥ 0, any z, i.e. any service level in
(0,1)); safety_stock ≥ 0 additionally needs z ≥ 0, i.e. service_level ≥ 1/2
(true of the default 0.95).  For service levels below 1/2 the safety stock
is negative whenever the variance term is nonzero. -/
theorem safety_stock_nonneg_amended (mean std L Lstd z : ℝ)
    (hmean : 0 ≤ mean) (hL : 0 ≤ L) :
    (calculate_safety_stock mean std L Lstd z).safety_stock ≤
        (calculate_safety_stock mean std L Lstd z).reorder_point ∧
      (0 ≤ z → 0 ≤ (calculate_safety_stock mean std L Lstd z).safety_stock) :=
  ⟨calc_ss_le_rop mean std L Lstd z hmean hL,
    fun hz => calc_ss_nonneg mean std L Lstd z hz⟩

/-- Witness for the amended claim C3 at concrete valid inputs. -/
theorem safety_stock_nonneg_amended_witness :
    ((0 : ℝ) ≤ 4.33 ∧ (0 : ℝ) ≤ 4) ∧
      ((calculate_safety_stock 4.33 0 4 0 1.645).safety_stock ≤
          (calculate_safety_stock 4.33 0 4 0 1.645).reorder_point ∧
        (0 ≤ (1.645 : ℝ) →
          0 ≤ (calculate_safety_stock 4.33 0 4 0 1.645).safety_stock)) :=
  ⟨⟨by norm_num, by norm_num⟩,
    safety_stock_nonneg_amended 4.33 0 4 0 1.645 (by norm_num) (by norm_num)⟩

/-- Claim C4 as stated is false: non-negative current stock alone does not
keep stockout_risk inside [0,1].  With z = 1.645 (service level 0.95), demand
mean 21.65, std 0, lead time -4 (the engine never validates lead times,
see claim C2), lead-time std 2 and current stock 5 ≥ 0, the critical branch
emits stockout_risk = -4 < 0: safety stock rounds to 16, the reorder point to
-4, so current 5 ≤ 8 = 0.5·16 is critical, and 1 - 5/max(-4,1) = -4. -/
theorem stockout_risk_unit_counterexample :
    0 ≤ (mkPolicy ⟨"X1", "frame", "standard", 5, 10, "S1", "Acme", -4, 2, 0⟩
        21.65 0 1.645 0.95).current_stock ∧
      (mkPolicy ⟨"X1", "frame", "standard", 5, 10, "S1", "Acme", -4, 2, 0⟩
        21.65 0 1.645 0.95).stockout_risk = -4 := by
  constructor
  · norm_num [mkPolicy]
  · have hss : (calculate_safety_stock 21.65 0 (-4) 2 1.645).safety_stock = 16 := by
      rw [calc_safety_stock_eq]
      have harg : (-4 : ℝ) * (0 / Real.sqrt 4.33) ^ 2 + (21.65 / 4.33) ^ 2 * 2 ^ 2
          = 10 ^ 2 := by
        rw [zero_div]
        norm_num
      rw [harg, Real.sqrt_sq (by norm_num : (0 : ℝ) ≤ 10)]
      exact pyRound_eq 16 _ (by norm_num) (by norm_num)
    have hrop : (calculate_safety_stock 21.65 0 (-4) 2 1.645).reorder_point = -4 := by
      rw [calc_reorder_point_eq]
      have harg : (-4 : ℝ) * (0 / Real.sqrt 4.33) ^ 2 + (21.65 / 4.33) ^ 2 * 2 ^ 2
          = 10 ^ 2 := by
        rw [zero_div]
        norm_num
      rw [harg, Real.sqrt_sq (by norm_num : (0 : ℝ) ≤ 10)]
      exact pyRound_eq (-4) _ (by norm_num) (by norm_num)
    have e : (mkPolicy ⟨"X1", "frame", "standard", 5, 10, "S1", "Acme", -4, 2, 0⟩
          21.65 0 1.645 0.95).stockout_risk
        = roundTo 3 (statusRisk 5 (calculate_safety_stock 21.65 0 (-4) 2 1.645).safety_stock
            (calculate_safety_stock 21.65 0 (-4) 2 1.645).reorder_point).2 := rfl
    rw [e, hss, hrop]
    have hsr : (statusRisk 5 (16 : ℤ) (-4 : ℤ)).2 = -4 := by
      unfold statusRisk
      rw [if_pos (by push_cast; norm_num : (5 : ℝ) ≤ ((16 : ℤ) : ℝ) * 0.5)]
      have hmax : (max (-4 : ℤ) 1) = 1 := by decide
      dsimp only
      rw [hmax]
      rw [min_eq_right (by push_cast; norm_num : (1 : ℝ) - 5 / ((1 : ℤ) : ℝ) ≤ 0.95)]
      push_cast
      norm_num
    rw [hsr, roundTo]
    have : (-4 : ℝ) * 10 ^ 3 = ((-4000 : ℤ) : ℝ) := by push_cast; norm_num
    rw [this, pyRound_intCast]
    push_cast
    norm_num

/-- Claim C4 amended: for every component with non-negative current stock,
non-negative demand mean and non-negative lead time, the emitted
stockout_risk lies in [0,1] in each of the three status branches (critical,
warning, ok).  (A negative demand mean or lead time, which the engine never
validates, can push the rounded reorder point below the critical threshold
and drive the risk formula negative.) -/
theorem stockout_risk_mem_unit (row : InventoryRow) (fm fs z sl : ℝ)
    (hcur : 0 ≤ row.current_stock) (hmean : 0 ≤ fm) (hL : 0 ≤ row.lead_time_weeks) :
    0 ≤ (mkPolicy row fm fs z sl).stockout_risk ∧
      (mkPolicy row fm fs z sl).stockout_risk ≤ 1 := by
  have e : (mkPolicy row fm fs z sl).stockout_risk
      = roundTo 3 (statusRisk row.current_stock
          (calculate_safety_stock fm fs row.lead_time_weeks row.lead_time_std_weeks z).safety_stock
          (calculate_safety_stock fm fs row.lead_time_weeks row.lead_time_std_weeks z).reorder_point).2 := rfl
  rw [e]
  have hsr := @statusRisk_mem_unit row.current_stock
    (calculate_safety_stock fm fs row.lead_time_weeks row.lead_time_std_weeks z).safety_stock
    (calculate_safety_stock fm fs row.lead_time_weeks row.lead_time_std_weeks z).reorder_point
    hcur (calc_ss_le_rop fm fs row.lead_time_weeks row.lead_time_std_weeks z hmean hL)
  exact roundTo3_mem_unit hsr.1 hsr.2

/-- Witness for the amended claim C4 at a concrete component. -/
theorem stockout_risk_mem_unit_witness :
    ((0 : ℝ) ≤ 5 ∧ (0 : ℝ) ≤ 21.65 ∧ (0 : ℝ) ≤ 4) ∧
      (0 ≤ (mkPolicy ⟨"X2", "frame", "standard", 5, 10, "S1", "Acme", 4, 2, 0⟩
          21.65 0 1.645 0.95).stockout_risk ∧
        (mkPolicy ⟨"X2", "frame", "standard", 5, 10, "S1", "Acme", 4, 2, 0⟩
          21.65 0 1.645 0.95).stockout_risk ≤ 1) :=
  ⟨⟨by norm_num, by norm_num, by norm_num⟩,
    stockout_risk_mem_unit ⟨"X2", "frame", "standard", 5, 10, "S1", "Acme", 4, 2, 0⟩
      21.65 0 1.645 0.95 (by norm_num) (by norm_num) (by norm_num)⟩

/-- Claim C2 as stated is false: the Stock Policy Engine performs no
validation at all.  A component that is invalid on every count the claim
lists (current_stock = -5 < 0, unit_cost = -3 < 0, lead_time_weeks = 0)
is processed normally and yields a numeric StockPolicy record: status
critical, stockout_risk 0.95, recommended_order_qty 15. -/
theorem validation_counterexample :
    (processComponent ⟨"B7", "brakes", "hydraulic", -5, -3, "S2", "Bexco", 0, 0, 10⟩
        none 1.645 0.95).status = Status.critical ∧
      (processComponent ⟨"B7", "brakes", "hydraulic", -5, -3, "S2", "Bexco", 0, 0, 10⟩
        none 1.645 0.95).stockout_risk = 0.95 ∧
      (processComponent ⟨"B7", "brakes", "hydraulic", -5, -3, "S2", "Bexco", 0, 0, 10⟩
        none 1.645 0.95).recommended_order_qty = 15 := by
  have hss : (calculate_safety_stock 10 (10 * 0.3) 0 0 1.645).safety_stock = 0 := by
    rw [calc_safety_stock_eq]
    have harg : (0 : ℝ) * (10 * 0.3 / Real.sqrt 4.33) ^ 2 + (10 / 4.33) ^ 2 * 0 ^ 2 = 0 := by
      norm_num
    rw [harg, Real.sqrt_zero]
    have h0 : (1.645 : ℝ) * 0 = ((0 : ℤ) : ℝ) := by norm_num
    rw [h0, pyRound_intCast]
  have hrop : (calculate_safety_stock 10 (10 * 0.3) 0 0 1.645).reorder_point = 0 := by
    rw [calc_reorder_point_eq]
    have harg : (0 : ℝ) * (10 * 0.3 / Real.sqrt 4.33) ^ 2 + (10 / 4.33) ^ 2 * 0 ^ 2 = 0 := by
      norm_num
    rw [harg, Real.sqrt_zero]
    have h0 : (10 : ℝ) / 4.33 * 0 + 1.645 * 0 = ((0 : ℤ) : ℝ) := by norm_num
    rw [h0, pyRound_intCast]
  have hsr : statusRisk (-5) (calculate_safety_stock 10 (10 * 0.3) 0 0 1.645).safety_stock
      (calculate_safety_stock 10 (10 * 0.3) 0 0 1.645).reorder_point
      = (Status.critical, 0.95) := by
    rw [hss, hrop]
    unfold statusRisk
    rw [if_pos (by push_cast; norm_num : (-5 : ℝ) ≤ ((0 : ℤ) : ℝ) * 0.5)]
    have hmax : (max (0 : ℤ) 1) = 1 := by decide
    rw [hmax, min_eq_left (by push_cast; norm_num : (0.95 : ℝ) ≤ 1 - -5 / ((1 : ℤ) : ℝ))]
  refine ⟨?_, ?_, ?_⟩
  · have e : (processComponent ⟨"B7", "brakes", "hydraulic", -5, -3, "S2", "Bexco", 0, 0, 10⟩
          none 1.645 0.95).status
        = (statusRisk (-5) (calculate_safety_stock 10 (10 * 0.3) 0 0 1.645).safety_stock
            (calculate_safety_stock 10 (10 * 0.3) 0 0 1.645).reorder_point).1 := rfl
    rw [e, hsr]
  · have e : (processComponent ⟨"B7", "brakes", "hydraulic", -5, -3, "S2", "Bexco", 0, 0, 10⟩
          none 1.645 0.95).stockout_risk
        = roundTo 3 (statusRisk (-5) (calculate_safety_stock 10 (10 * 0.3) 0 0 1.645).safety_stock
            (calculate_safety_stock 10 (10 * 0.3) 0 0 1.645).reorder_point).2 := rfl
    rw [e, hsr]
    rw [roundTo_of_mul_eq_intCast 3 _ 950 (by push_cast; norm_num)]
    push_cast
    norm_num
  · have e : (processComponent ⟨"B7", "brakes", "hydraulic", -5, -3, "S2", "Bexco", 0, 0, 10⟩
          none 1.645 0.95).recommended_order_qty
        = if (-5 : ℝ) < ((calculate_safety_stock 10 (10 * 0.3) 0 0 1.645).reorder_point : ℝ) then
            max 0 (((calculate_safety_stock 10 (10 * 0.3) 0 0 1.645).reorder_point : ℝ) - (-5)
              + ((eoqCalc (-3) 10 : ℤ) : ℝ))
          else 0 := rfl
    have heoq : eoqCalc (-3) 10 = 10 := by
      rw [eoqCalc, if_neg (by norm_num : ¬((0 : ℝ) < -3))]
      have h10 : (10 : ℝ) = ((10 : ℤ) : ℝ) := by norm_num
      rw [h10, pyRound_intCast]
    rw [e, hrop, heoq]
    rw [if_pos (by push_cast; norm_num : (-5 : ℝ) < ((0 : ℤ) : ℝ))]
    push_cast
    norm_num

/-- Claim C2 amended: the engine applies no validation; a component with
negative current stock (or negative cost, or non-positive lead time) is
processed rather than rejected.  In particular any row with negative
current stock and z ≥ 0 produces a numeric record with status critical and
stockout_risk exactly 0.95. -/
theorem no_validation_amended (row : InventoryRow) (fmatch : Option (ℝ × ℝ))
    (z sl : ℝ) (hneg : row.current_stock < 0) (hz : 0 ≤ z) :
    (processComponent row fmatch z sl).status = Status.critical ∧
      (processComponent row fmatch z sl).stockout_risk = 0.95 := by
  have hss : 0 ≤ (calculate_safety_stock (selectDemand fmatch row.monthly_demand_avg).1
      (selectDemand fmatch row.monthly_demand_avg).2
      row.lead_time_weeks row.lead_time_std_weeks z).safety_stock :=
    calc_ss_nonneg _ _ _ _ _ hz
  have hssR : (0 : ℝ) ≤ ((calculate_safety_stock (selectDemand fmatch row.monthly_demand_avg).1
      (selectDemand fmatch row.monthly_demand_avg).2
      row.lead_time_weeks row.lead_time_std_weeks z).safety_stock : ℝ) := by
    exact_mod_cast hss
  have hm1 : (1 : ℝ) ≤ ((max (calculate_safety_stock (selectDemand fmatch row.monthly_demand_avg).1
      (selectDemand fmatch row.monthly_demand_avg).2
      row.lead_time_weeks row.lead_time_std_weeks z).reorder_point 1 : ℤ) : ℝ) := by
    exact_mod_cast le_max_right _ 1
  have hdiv : row.current_stock / ((max (calculate_safety_stock
      (selectDemand fmatch row.monthly_demand_avg).1
      (selectDemand fmatch row.monthly_demand_avg).2
      row.lead_time_weeks row.lead_time_std_weeks z).reorder_point 1 : ℤ) : ℝ) < 0 :=
    div_neg_of_neg_of_pos hneg (by linarith)
  have hsr : statusRisk row.current_stock
      (calculate_safety_stock (selectDemand fmatch row.monthly_demand_avg).1
        (selectDemand fmatch row.monthly_demand_avg).2
        row.lead_time_weeks row.lead_time_std_weeks z).safety_stock
      (calculate_safety_stock (selectDemand fmatch row.monthly_demand_avg).1
        (selectDemand fmatch row.monthly_demand_avg).2
        row.lead_time_weeks row.lead_time_std_weeks z).reorder_point
      = (Status.critical, 0.95) := by
    unfold statusRisk
    rw [if_pos (by nlinarith)]
    rw [min_eq_left (by linarith)]
  exact ⟨by rw [show (processComponent row fmatch z sl).status = (statusRisk row.current_stock
        (calculate_safety_stock (selectDemand fmatch row.monthly_demand_avg).1
          (selectDemand fmatch row.monthly_demand_avg).2
          row.lead_time_weeks row.lead_time_std_weeks z).safety_stock
        (calculate_safety_stock (selectDemand fmatch row.monthly_demand_avg).1
          (selectDemand fmatch row.monthly_demand_avg).2
          row.lead_time_weeks row.lead_time_std_weeks z).reorder_point).1 from rfl, hsr],
    by
      rw [show (processComponent row fmatch z sl).stockout_risk = roundTo 3 (statusRisk
          row.current_stock
          (calculate_safety_stock (selectDemand fmatch row.monthly_demand_avg).1
            (selectDemand fmatch row.monthly_demand_avg).2
            row.lead_time_weeks row.lead_time_std_weeks z).safety_stock
          (calculate_safety_stock (selectDemand fmatch row.monthly_demand_avg).1
            (selectDemand fmatch row.monthly_demand_avg).2
            row.lead_time_weeks row.lead_time_std_weeks z).reorder_point).2 from rfl, hsr]
      rw [roundTo_of_mul_eq_intCast 3 _ 950 (by push_cast; norm_num)]
      push_cast
      norm_num⟩

/-- Witness for the amended claim C2 at a concrete invalid component. -/
theorem no_validation_amended_witness :
    ((-5 : ℝ) < 0 ∧ (0 : ℝ) ≤ 1.645) ∧
      ((processComponent ⟨"B8", "brakes", "air", -5, 3, "S2", "Bexco", 2, 1, 10⟩
          none 1.645 0.95).status = Status.critical ∧
        (processComponent ⟨"B8", "brakes", "air", -5, 3, "S2", "Bexco", 2, 1, 10⟩
          none 1.645 0.95).stockout_risk = 0.95) :=
  ⟨⟨by norm_num, by norm_num⟩,
    no_validation_amended ⟨"B8", "brakes", "air", -5, 3, "S2", "Bexco", 2, 1, 10⟩
      none 1.645 0.95 (show (-5 : ℝ) < 0 by norm_num) (by norm_num)⟩

/-- Claim C7 as stated is false: for a component with no forecast record the
fallback demand std is 0.3 × mean with no floor — the `max(·, 1)` floor is
applied only to a forecast-derived std.  At monthly_demand_avg = 2 the code
uses std 0.6 and rounds safety stock to 1, while the claimed floored std
max(0.6, 1) = 1 would round it to 2 (z = 1.645, lead time 4.33 weeks,
lead-time std 0). -/
theorem fallback_std_counterexample :
    (processComponent ⟨"F2", "frame", "aluminium", 100, 5, "S3", "Alun", 4.33, 0, 2⟩
        none 1.645 0.95).safety_stock = 1 ∧
      (calculate_safety_stock 2 (max (2 * 0.3) 1) 4.33 0 1.645).safety_stock = 2 := by
  constructor
  · have e : (processComponent ⟨"F2", "frame", "aluminium", 100, 5, "S3", "Alun", 4.33, 0, 2⟩
          none 1.645 0.95).safety_stock
        = (calculate_safety_stock 2 (2 * 0.3) 4.33 0 1.645).safety_stock := rfl
    rw [e, calc_safety_stock_eq]
    have harg : (4.33 : ℝ) * (2 * 0.3 / Real.sqrt 4.33) ^ 2 + (2 / 4.33) ^ 2 * 0 ^ 2
        = 0.6 ^ 2 := by
      rw [div_pow, Real.sq_sqrt (by norm_num : (0 : ℝ) ≤ 4.33)]
      norm_num
    rw [harg, Real.sqrt_sq (by norm_num : (0 : ℝ) ≤ 0.6)]
    exact pyRound_eq 1 _ (by norm_num) (by norm_num)
  · have hstd : (max (2 * 0.3) 1 : ℝ) = 1 := max_eq_right (by norm_num)
    rw [hstd, calc_safety_stock_eq]
    have harg : (4.33 : ℝ) * (1 / Real.sqrt 4.33) ^ 2 + (2 / 4.33) ^ 2 * 0 ^ 2
        = 1 ^ 2 := by
      rw [div_pow, Real.sq_sqrt (by norm_num : (0 : ℝ) ≤ 4.33)]
      norm_num
    rw [harg, Real.sqrt_sq (by norm_num : (0 : ℝ) ≤ 1)]
    exact pyRound_eq 2 _ (by norm_num) (by norm_num)

/-- Claim C7 amended: with no forecast record the engine uses
mean = monthly_demand_avg and std = 0.3 × that mean (no floor); the floor
at 1 is applied only to the std of a present forecast record. -/
theorem fallback_std_amended (row : InventoryRow) (z sl m s : ℝ) :
    processComponent row none z sl
        = mkPolicy row row.monthly_demand_avg (row.monthly_demand_avg * 0.3) z sl ∧
      processComponent row (some (m, s)) z sl = mkPolicy row m (max s 1) z sl :=
  ⟨rfl, rfl⟩

theorem mkRec_warning (fdf : Option (List ForecastRow)) (p : StockPolicy)
    (h : p.status = Status.warning) :
    (mkRec fdf p).priority = 2 ∧
      (mkRec fdf p).message = RecMessage.warningOrderBy
        (engineFixedToday + 7 * max 0 (p.weeks_of_cover - p.lead_time_weeks))
        p.recommended_order_qty := by
  unfold mkRec
  rw [h]
  exact ⟨rfl, rfl⟩

/-- Claim C10: a component whose current stock exactly equals its computed
reorder point while exceeding half its safety stock is classified warning
(not ok) — `current <= rop` is inclusive — while `recommended_order_qty`
is 0 because the order-quantity branch tests the strict `current < rop`;
the recommender then emits a priority-2 warning message instructing an
order of 0 units. -/
theorem warning_boundary_zero_qty (row : InventoryRow) (fm fs z sl : ℝ)
    (heq : row.current_stock = ((mkPolicy row fm fs z sl).reorder_point : ℝ))
    (hgt : ((mkPolicy row fm fs z sl).safety_stock : ℝ) * 0.5 < row.current_stock) :
    (mkPolicy row fm fs z sl).status = Status.warning ∧
      (mkPolicy row fm fs z sl).recommended_order_qty = 0 ∧
      (mkRec none (mkPolicy row fm fs z sl)).priority = 2 ∧
      ∃ d, (mkRec none (mkPolicy row fm fs z sl)).message
        = RecMessage.warningOrderBy d 0 := by
  have erop : (mkPolicy row fm fs z sl).reorder_point
      = (calculate_safety_stock fm fs row.lead_time_weeks row.lead_time_std_weeks z).reorder_point := rfl
  have ess : (mkPolicy row fm fs z sl).safety_stock
      = (calculate_safety_stock fm fs row.lead_time_weeks row.lead_time_std_weeks z).safety_stock := rfl
  have hst : (mkPolicy row fm fs z sl).status = Status.warning := by
    have e : (mkPolicy row fm fs z sl).status
        = (statusRisk row.current_stock
            (calculate_safety_stock fm fs row.lead_time_weeks row.lead_time_std_weeks z).safety_stock
            (calculate_safety_stock fm fs row.lead_time_weeks row.lead_time_std_weeks z).reorder_point).1 := rfl
    rw [e]
    unfold statusRisk
    rw [if_neg (not_le.mpr (by rw [← ess]; exact hgt)),
      if_pos (le_of_eq (by rw [← erop]; exact heq))]
  have hqty : (mkPolicy row fm fs z sl).recommended_order_qty = 0 := by
    have e : (mkPolicy row fm fs z sl).recommended_order_qty
        = if row.current_stock <
              ((calculate_safety_stock fm fs row.lead_time_weeks row.lead_time_std_weeks z).reorder_point : ℝ)
          then max 0
            (((calculate_safety_stock fm fs row.lead_time_weeks row.lead_time_std_weeks z).reorder_point : ℝ)
              - row.current_stock + ((eoqCalc row.unit_cost fm : ℤ) : ℝ))
          else 0 := rfl
    rw [e, if_neg (by rw [← erop, ← heq]; exact lt_irrefl _)]
  have hrec := mkRec_warning none (mkPolicy row fm fs z sl) hst
  exact ⟨hst, hqty, hrec.1,
    ⟨engineFixedToday + 7 * max 0 ((mkPolicy row fm fs z sl).weeks_of_cover -
        (mkPolicy row fm fs z sl).lead_time_weeks),
      by rw [hrec.2, hqty]⟩⟩

/-- Witness for claim C10 at a concrete component: mean 4.33, std 0,
lead time 4, lead-time std 0, z = 1.645, so safety stock rounds to 0 and
the reorder point to 4 = current stock. -/
theorem warning_boundary_zero_qty_witness :
    ((4 : ℝ) = ((mkPolicy ⟨"W2", "frame", "standard", 4, 10, "S1", "Acme", 4, 0, 0⟩
          4.33 0 1.645 0.95).reorder_point : ℝ) ∧
      ((mkPolicy ⟨"W2", "frame", "standard", 4, 10, "S1", "Acme", 4, 0, 0⟩
          4.33 0 1.645 0.95).safety_stock : ℝ) * 0.5 < 4) ∧
      ((mkPolicy ⟨"W2", "frame", "standard", 4, 10, "S1", "Acme", 4, 0, 0⟩
          4.33 0 1.645 0.95).status = Status.warning ∧
        (mkPolicy ⟨"W2", "frame", "standard", 4, 10, "S1", "Acme", 4, 0, 0⟩
          4.33 0 1.645 0.95).recommended_order_qty = 0 ∧
        (mkRec none (mkPolicy ⟨"W2", "frame", "standard", 4, 10, "S1", "Acme", 4, 0, 0⟩
          4.33 0 1.645 0.95)).priority = 2 ∧
        ∃ d, (mkRec none (mkPolicy ⟨"W2", "frame", "standard", 4, 10, "S1", "Acme", 4, 0, 0⟩
          4.33 0 1.645 0.95)).message = RecMessage.warningOrderBy d 0) := by
  have harg : (4 : ℝ) * (0 / Real.sqrt 4.33) ^ 2 + (4.33 / 4.33) ^ 2 * 0 ^ 2 = 0 := by
    norm_num
  have hss : (mkPolicy ⟨"W2", "frame", "standard", 4, 10, "S1", "Acme", 4, 0, 0⟩
      4.33 0 1.645 0.95).safety_stock = 0 := by
    have e : (mkPolicy ⟨"W2", "frame", "standard", 4, 10, "S1", "Acme", 4, 0, 0⟩
        4.33 0 1.645 0.95).safety_stock
        = (calculate_safety_stock 4.33 0 4 0 1.645).safety_stock := rfl
    rw [e, calc_safety_stock_eq, harg, Real.sqrt_zero]
    have h0 : (1.645 : ℝ) * 0 = ((0 : ℤ) : ℝ) := by norm_num
    rw [h0, pyRound_intCast]
  have hrop : (mkPolicy ⟨"W2", "frame", "standard", 4, 10, "S1", "Acme", 4, 0, 0⟩
      4.33 0 1.645 0.95).reorder_point = 4 := by
    have e : (mkPolicy ⟨"W2", "frame", "standard", 4, 10, "S1", "Acme", 4, 0, 0⟩
        4.33 0 1.645 0.95).reorder_point
        = (calculate_safety_stock 4.33 0 4 0 1.645).reorder_point := rfl
    rw [e, calc_reorder_point_eq, harg, Real.sqrt_zero]
    have h4 : (4.33 : ℝ) / 4.33 * 4 + 1.645 * 0 = ((4 : ℤ) : ℝ) := by push_cast; norm_num
    rw [h4, pyRound_intCast]
  refine ⟨⟨by rw [hrop]; norm_num, by rw [hss]; norm_num⟩, ?_⟩
  exact warning_boundary_zero_qty ⟨"W2", "frame", "standard", 4, 10, "S1", "Acme", 4, 0, 0⟩
    4.33 0 1.645 0.95 (by rw [hrop]; norm_num) (by rw [hss]; norm_num)

/-- Claim C9 as stated is false: the current date used for deadline
arithmetic is not a parameter of `generate_recommendations` and is not
supplied by its caller — it is the constant `datetime(2026, 2, 18)` fixed
in the engine's body.  Invoking the engine at ambient date 0 and at ambient
date 1000 produces identical output, and the warning deadline equals day 14
measured from the engine-fixed date (7·(cover 6 − lead 4)), independent of
any ambient date. -/
theorem current_date_counterexample :
    generate_recommendations_at 0 [sampleWarningPolicy] none
        = generate_recommendations_at 1000 [sampleWarningPolicy] none ∧
      (generate_recommendations_at 1000 [sampleWarningPolicy] none).map
          Recommendation.message
        = [RecMessage.warningOrderBy (engineFixedToday + 14) 25] := by
  constructor
  · rfl
  · have e : (generate_recommendations_at 1000 [sampleWarningPolicy] none).map
        Recommendation.message
        = [RecMessage.warningOrderBy
            (engineFixedToday + 7 * max 0 ((6 : ℝ) - 4)) 25] := rfl
    rw [e]
    have h14 : (7 : ℝ) * max 0 ((6 : ℝ) - 4) = 14 := by
      rw [max_eq_right (by norm_num : (0 : ℝ) ≤ (6 : ℝ) - 4)]
      norm_num
    rw [h14]

/-- Claim C9 amended: the engine's output — including every deadline field —
is entirely independent of the ambient current date, because `today` is the
constant datetime(2026, 2, 18) fixed in the engine body rather than either a
caller-supplied parameter or a process-wide clock read; warning deadlines are
`fixed date + 7·max(0, cover − lead)` days. -/
theorem current_date_amended (d d' : ℝ) (policies : List StockPolicy)
    (fdf : Option (List ForecastRow)) :
    generate_recommendations_at d policies fdf
        = generate_recommendations_at d' policies fdf ∧
      ∀ p : StockPolicy, p.status = Status.warning →
        (mkRec fdf p).message = RecMessage.warningOrderBy
          (engineFixedToday + 7 * max 0 (p.weeks_of_cover - p.lead_time_weeks))
          p.recommended_order_qty :=
  ⟨rfl, fun p hp => (mkRec_warning fdf p hp).2⟩

/-- Witness for the amended claim C9 at concrete ambient dates and a
concrete warning policy. -/
theorem current_date_amended_witness :
    (sampleWarningPolicy.status = Status.warning) ∧
      (generate_recommendations_at 0 [sampleWarningPolicy] none
          = generate_recommendations_at 1000 [sampleWarningPolicy] none ∧
        (mkRec none sampleWarningPolicy).message = RecMessage.warningOrderBy
          (engineFixedToday + 7 * max 0
            (sampleWarningPolicy.weeks_of_cover - sampleWarningPolicy.lead_time_weeks))
          sampleWarningPolicy.recommended_order_qty) :=
  ⟨rfl, (current_date_amended 0 1000 [sampleWarningPolicy] none).1,
    (current_date_amended 0 1000 [sampleWarningPolicy] none).2 sampleWarningPolicy rfl⟩

theorem filter_orderedInsert_key (p : Recommendation → Bool) (a : Recommendation)
    (l : List Recommendation) (hcomp : ∀ b, p b = true → p a = true → recLE a b) :
    (List.orderedInsert recLE a l).filter p
      = if p a = true then a :: l.filter p else l.filter p := by
  induction l with
  | nil =>
    rw [List.orderedInsert, List.filter_cons]
  | cons b t ih =>
    rw [List.orderedInsert]
    by_cases hr : recLE a b
    · rw [if_pos hr, List.filter_cons]
    · rw [if_neg hr, List.filter_cons, ih]
      by_cases hpb : p b = true
      · by_cases hpa : p a = true
        · exact absurd (hcomp b hpb hpa) hr
        · simp [hpb, hpa, List.filter_cons]
      · by_cases hpa : p a = true
        · simp [hpb, hpa, List.filter_cons]
        · simp [hpb, hpa, List.filter_cons]

theorem keyFilter_insertionSort (pr : ℕ) (ri : ℝ) (l : List Recommendation) :
    keyFilter pr ri (List.insertionSort recLE l) = keyFilter pr ri l := by
  induction l with
  | nil => rfl
  | cons a t ih =>
    unfold keyFilter at ih ⊢
    rw [List.insertionSort]
    rw [filter_orderedInsert_key _ a _ ?hcomp]
    case hcomp =>
      intro b hb ha
      simp only [Bool.and_eq_true, beq_iff_eq, decide_eq_true_eq] at hb ha
      exact Or.inr ⟨ha.1.trans hb.1.symm, le_of_eq (hb.2.trans ha.2.symm)⟩
    rw [ih, List.filter_cons]

/-- Claim C5: the Recommendation Engine returns the full sequence of
recommendations (one per input policy row, a permutation of the unsorted
mapped list), sorted by priority ascending then stockout_risk descending
(priority is 1 for critical, 2 for warning, 3 for ok — see `mkRec`), and
stably: for every exact key (priority, risk) the entries carrying that key
appear in their original input order. -/
theorem recommendations_sorted_stably (policies : List StockPolicy)
    (fdf : Option (List ForecastRow)) :
    (generate_recommendations policies fdf).Perm (policies.map (mkRec fdf)) ∧
      List.Sorted recLE (generate_recommendations policies fdf) ∧
      ∀ pr ri, keyFilter pr ri (generate_recommendations policies fdf)
        = keyFilter pr ri (policies.map (mkRec fdf)) :=
  ⟨List.perm_insertionSort recLE _, List.sorted_insertionSort recLE _,
    fun pr ri => keyFilter_insertionSort pr ri _⟩

/-- Claim C6: a forecast-spike alert is attached to a component's
recommendation iff its (category, variant) forecast rows are nonempty and
their maximum predicted demand exceeds 1.3 × their mean; when attached, the
alert names the first peak period and reports round((max/mean − 1)·100)
percent and round(max − mean) incremental units. -/
theorem spike_alert_spec (fdf : List ForecastRow) (p : StockPolicy) :
    ((mkRec (some fdf) p).forecast_alert.isSome = true ↔
        (forecastFor fdf p.category p.variant ≠ [] ∧
          listMax ((forecastFor fdf p.category p.variant).map ForecastRow.predicted) >
            listMean ((forecastFor fdf p.category p.variant).map ForecastRow.predicted)
              * 1.3)) ∧
      ((forecastFor fdf p.category p.variant ≠ [] ∧
          listMax ((forecastFor fdf p.category p.variant).map ForecastRow.predicted) >
            listMean ((forecastFor fdf p.category p.variant).map ForecastRow.predicted)
              * 1.3) →
        (mkRec (some fdf) p).forecast_alert = some
          { month := ((firstMax (forecastFor fdf p.category p.variant)).map
                ForecastRow.year_month).getD "Q3"
            spike_pct := pyRound
              ((listMax ((forecastFor fdf p.category p.variant).map ForecastRow.predicted)
                / listMean ((forecastFor fdf p.category p.variant).map ForecastRow.predicted)
                - 1) * 100)
            units := pyRound
              (listMax ((forecastFor fdf p.category p.variant).map ForecastRow.predicted)
                - listMean ((forecastFor fdf p.category p.variant).map
                    ForecastRow.predicted)) }) := by
  have e : (mkRec (some fdf) p).forecast_alert
      = spikeAlert (forecastFor fdf p.category p.variant) := rfl
  rw [e]
  simp only [spikeAlert]
  constructor
  · split_ifs with h
    · simpa using h
    · simpa using h
  · intro h
    rw [if_pos h]

/-- Witness for claim C6: three forecast rows with predicted demand 50, 100,
150 give mean 100 and max 150 > 130, so a spike alert is attached with
spike_pct = 50, units = 50 and peak period 2026-05 (the spec's scenario). -/
theorem spike_alert_spec_witness :
    (forecastFor [⟨"frame", "standard", "2026-03", 50⟩, ⟨"frame", "standard", "2026-04", 100⟩,
          ⟨"frame", "standard", "2026-05", 150⟩] "frame" "standard" ≠ [] ∧
        listMax ((forecastFor [⟨"frame", "standard", "2026-03", 50⟩,
            ⟨"frame", "standard", "2026-04", 100⟩, ⟨"frame", "standard", "2026-05", 150⟩]
            "frame" "standard").map ForecastRow.predicted) >
          listMean ((forecastFor [⟨"frame", "standard", "2026-03", 50⟩,
            ⟨"frame", "standard", "2026-04", 100⟩, ⟨"frame", "standard", "2026-05", 150⟩]
            "frame" "standard").map ForecastRow.predicted) * 1.3) ∧
      (mkRec (some [⟨"frame", "standard", "2026-03", 50⟩, ⟨"frame", "standard", "2026-04", 100⟩,
          ⟨"frame", "standard", "2026-05", 150⟩]) sampleWarningPolicy).forecast_alert
        = some { month := "2026-05", spike_pct := 50, units := 50 } := by
  have hF : forecastFor [⟨"frame", "standard", "2026-03", 50⟩,
      ⟨"frame", "standard", "2026-04", 100⟩, ⟨"frame", "standard", "2026-05", 150⟩]
      "frame" "standard"
      = [⟨"frame", "standard", "2026-03", 50⟩, ⟨"frame", "standard", "2026-04", 100⟩,
        ⟨"frame", "standard", "2026-05", 150⟩] := by
    simp [forecastFor]
  have hmap : ([⟨"frame", "standard", "2026-03", 50⟩, ⟨"frame", "standard", "2026-04", 100⟩,
      ⟨"frame", "standard", "2026-05", 150⟩] : List ForecastRow).map ForecastRow.predicted
      = [50, 100, 150] := rfl
  have hmax : listMax [(50 : ℝ), 100, 150] = 150 := by
    unfold listMax
    simp only [List.foldl]
    rw [max_eq_right (by norm_num : (50 : ℝ) ≤ 100), max_eq_right (by norm_num : (100 : ℝ) ≤ 150)]
  have hmean : listMean [(50 : ℝ), 100, 150] = 100 := by
    unfold listMean
    norm_num
  have hcond : forecastFor [⟨"frame", "standard", "2026-03", 50⟩,
      ⟨"frame", "standard", "2026-04", 100⟩, ⟨"frame", "standard", "2026-05", 150⟩]
      "frame" "standard" ≠ [] ∧
      listMax ((forecastFor [⟨"frame", "standard", "2026-03", 50⟩,
        ⟨"frame", "standard", "2026-04", 100⟩, ⟨"frame", "standard", "2026-05", 150⟩]
        "frame" "standard").map ForecastRow.predicted) >
        listMean ((forecastFor [⟨"frame", "standard", "2026-03", 50⟩,
          ⟨"frame", "standard", "2026-04", 100⟩, ⟨"frame", "standard", "2026-05", 150⟩]
          "frame" "standard").map ForecastRow.predicted) * 1.3 := by
    rw [hF, hmap, hmax, hmean]
    exact ⟨by simp, by norm_num⟩
  refine ⟨hcond, ?_⟩
  have halert := (spike_alert_spec [⟨"frame", "standard", "2026-03", 50⟩,
    ⟨"frame", "standard", "2026-04", 100⟩, ⟨"frame", "standard", "2026-05", 150⟩]
    sampleWarningPolicy).2 hcond
  rw [halert]
  rw [show sampleWarningPolicy.category = "frame" from rfl,
    show sampleWarningPolicy.variant = "standard" from rfl]
  have hfm : firstMax [⟨"frame", "standard", "2026-03", 50⟩,
      ⟨"frame", "standard", "2026-04", 100⟩, ⟨"frame", "standard", "2026-05", 150⟩]
      = some ⟨"frame", "standard", "2026-05", 150⟩ := by
    unfold firstMax
    rw [hmap, hmax]
    unfold firstMaxFrom
    rw [if_neg (show ¬((50 : ℝ) = 150) by norm_num)]
    unfold firstMaxFrom
    rw [if_neg (show ¬((100 : ℝ) = 150) by norm_num)]
    unfold firstMaxFrom
    rw [if_pos (show (150 : ℝ) = 150 from rfl)]
  rw [hF, hmap, hmax, hmean, hfm]
  have hpct : ((150 : ℝ) / 100 - 1) * 100 = ((50 : ℤ) : ℝ) := by push_cast; norm_num
  have hunits : (150 : ℝ) - 100 = ((50 : ℤ) : ℝ) := by push_cast; norm_num
  rw [hpct, hunits, pyRound_intCast]
  rfl

theorem sampleStd_eq_sqrt_ratio_mul_popStd (l : List ℝ) (h : 2 ≤ l.length) :
    sampleStd l = Real.sqrt ((l.length : ℝ) / ((l.length : ℝ) - 1)) * popStd l := by
  unfold sampleStd popStd
  have hn : (2 : ℝ) ≤ (l.length : ℝ) := by exact_mod_cast h
  rw [← Real.sqrt_mul (div_nonneg (by linarith) (by linarith))
    ((l.map (fun x => (x - listMean l) ^ 2)).sum / (l.length : ℝ))]
  congr 1
  have h0 : (l.length : ℝ) ≠ 0 := by linarith
  have h1 : (l.length : ℝ) - 1 ≠ 0 := by linarith
  field_simp
  ring

theorem windowPrev_append (d : List ℝ) (x : ℝ) (w : ℕ) :
    windowPrev (d ++ [x]) d.length w = fcRecent d w := by
  unfold windowPrev fcRecent
  rw [List.take_left]

/-- Claim C8 as stated is false: the rolling std fed to the model during the
recursive forecast differs from the training-time rolling std on the same
extended series, because training uses the pandas sample std (ddof = 1)
while the loop uses numpy's population std (ddof = 0).  On the extended
series [1, 3] the loop computes std 1 while the training definition at the
same position gives √2. -/
theorem recursive_features_counterexample :
    fcStd3 [1, 3] = 1 ∧ trainRollingStd ([1, 3] ++ [0]) 2 3 = Real.sqrt 2 ∧
      fcStd3 [1, 3] ≠ trainRollingStd ([1, 3] ++ [0]) 2 3 := by
  have hmean : listMean [(1 : ℝ), 3] = 2 := by
    simp only [listMean, List.sum_cons, List.sum_nil, List.length_cons, List.length_nil]
    norm_num
  have hrecent : fcRecent [(1 : ℝ), 3] 3 = [1, 3] := rfl
  have hpop : popStd [(1 : ℝ), 3] = 1 := by
    unfold popStd
    simp only [hmean, List.map_cons, List.map_nil, List.sum_cons, List.sum_nil,
      List.length_cons, List.length_nil]
    exact sqrt_of_eq_sq (by norm_num) (by push_cast; norm_num)
  have hwin : windowPrev ([(1 : ℝ), 3] ++ [0]) 2 3 = [1, 3] := rfl
  have hsample : sampleStd [(1 : ℝ), 3] = Real.sqrt 2 := by
    unfold sampleStd
    simp only [hmean, List.map_cons, List.map_nil, List.sum_cons, List.sum_nil,
      List.length_cons, List.length_nil]
    congr 1
    push_cast
    norm_num
  have h1 : fcStd3 [1, 3] = 1 := by
    unfold fcStd3
    rw [hrecent] at *
    rw [if_pos (by norm_num : 1 < ([(1 : ℝ), 3]).length), hpop]
  have h2 : trainRollingStd ([1, 3] ++ [0]) 2 3 = Real.sqrt 2 := by
    unfold trainRollingStd
    rw [show windowPrev ([(1 : ℝ), 3] ++ [0]) 2 3 = [1, 3] from hwin]
    rw [if_pos (by norm_num : 2 ≤ ([(1 : ℝ), 3]).length), hsample]
  refine ⟨h1, h2, ?_⟩
  rw [h1, h2]
  intro h
  have h2' := Real.sqrt_eq_one.mp h.symm
  norm_num at h2'

/-- Claim C8 amended: during the recursive forecast the lag features and the
rolling means fed to the model agree exactly with the training-time feature
definitions applied to the series extended with the previously forecast
periods (positionally, including the minimum-observation rule), but the
rolling std estimator differs: training uses the pandas sample std
(ddof = 1) where the loop uses numpy's population std (ddof = 0).  The two
agree only on windows of fewer than two observations (both give 0); on a
window of n ≥ 2 observations the training value is √(n/(n−1)) times the
loop value. -/
theorem recursive_features_amended :
    (∀ (d : List ℝ) (x : ℝ) (k : ℕ), k ∈ ([1, 3, 6, 12] : List ℕ) →
        fcLag d k = trainLag (d ++ [x]) d.length k) ∧
      (∀ (d : List ℝ) (x : ℝ) (w : ℕ),
        fcMean d w = trainRollingMean (d ++ [x]) d.length w) ∧
      (∀ (d : List ℝ) (x : ℝ), (fcRecent d 3).length ≤ 1 →
        fcStd3 d = trainRollingStd (d ++ [x]) d.length 3) ∧
      (∀ (d : List ℝ) (x : ℝ), 2 ≤ (fcRecent d 3).length →
        trainRollingStd (d ++ [x]) d.length 3
          = Real.sqrt (((fcRecent d 3).length : ℝ) /
              (((fcRecent d 3).length : ℝ) - 1)) * fcStd3 d) := by
  refine ⟨?_, ?_, ?_, ?_⟩
  · intro d x k hk
    have hk1 : 1 ≤ k := by
      simp only [List.mem_cons, List.not_mem_nil, or_false] at hk
      omega
    unfold fcLag trainLag
    by_cases h : k ≤ d.length
    · rw [if_pos h, if_pos h, List.getD_append _ _ _ _ (by omega)]
    · rw [if_neg h, if_neg h]
  · intro d x w
    unfold fcMean trainRollingMean
    rw [windowPrev_append]
  · intro d x h1
    unfold fcStd3 trainRollingStd
    rw [windowPrev_append]
    rw [if_neg (not_lt.mpr h1), if_neg (by omega)]
  · intro d x h2
    unfold trainRollingStd fcStd3
    rw [windowPrev_append]
    rw [if_pos h2, if_pos (by omega)]
    exact sampleStd_eq_sqrt_ratio_mul_popStd (fcRecent d 3) h2

/-- Witness for the amended claim C8 on concrete extended series. -/
theorem recursive_features_amended_witness :
    ((1 ∈ ([1, 3, 6, 12] : List ℕ)) ∧ (fcRecent [(1 : ℝ)] 3).length ≤ 1 ∧
        2 ≤ (fcRecent [(1 : ℝ), 3] 3).length) ∧
      (fcLag [(1 : ℝ), 3] 1 = trainLag ([(1 : ℝ), 3] ++ [0]) 2 1 ∧
        fcMean [(1 : ℝ), 3] 3 = trainRollingMean ([(1 : ℝ), 3] ++ [0]) 2 3 ∧
        fcStd3 [(1 : ℝ)] = trainRollingStd ([(1 : ℝ)] ++ [0]) 1 3 ∧
        trainRollingStd ([(1 : ℝ), 3] ++ [0]) 2 3
          = Real.sqrt (((fcRecent [(1 : ℝ), 3] 3).length : ℝ) /
              (((fcRecent [(1 : ℝ), 3] 3).length : ℝ) - 1)) * fcStd3 [(1 : ℝ), 3]) := by
  refine ⟨⟨by simp, by simp [fcRecent], by simp [fcRecent]⟩, ?_, ?_, ?_, ?_⟩
  · exact recursive_features_amended.1 [1, 3] 0 1 (by simp)
  · exact recursive_features_amended.2.1 [1, 3] 0 3
  · exact recursive_features_amended.2.2.1 [1] 0 (by simp [fcRecent])
  · exact recursive_features_amended.2.2.2 [1, 3] 0 (by simp [fcRecent])

end
